import Mathlib

set_option linter.unusedSectionVars false

/-!
Shallow embedding of `src/bbanalyze.py` (function `bbanalyze`): a pipeline that
cleans a season-level batting table, adds rate columns through a safe division
helper, partitions by league, aggregates career totals per player (at-bats
threshold 50), and selects fourteen record holders with a deterministic
tie-break, assembling a fixed-key report.

Modelling conventions:
- A table is a list of rows.  A raw cell that pandas would hold as NaN is
  `Option.none`; counting statistics are exact integers (`ℤ`), rate values are
  exact rationals (`ℚ`).  Float division is modelled by exact rational
  division together with an explicit IEEE-style value type (`FVal`) so that
  the `out[~np.isfinite(out)] = np.nan` masking step of `_safe_div` is
  represented faithfully.
- The player identity column is an arbitrary linearly ordered type `ι`
  (strings in the real data; the order is the lexicographic/numeric order
  used by `sort_values`).
- `df[col]` on a frame lacking `col` raises `KeyError` in pandas, and
  `int(df["year"].min())` raises `ValueError` when the year column has no
  numeric entry; the top-level `bbanalyze` therefore returns `Except`.
-/

namespace BBAnalyze

/-- A raw scalar cell as `pd.to_numeric(..., errors="coerce")` sees it:
a numeric value, a missing value (NaN), or a non-numeric entry. -/
inductive RawCell where
  | num (z : ℤ)
  | na
  | nonNumeric (s : String)
deriving DecidableEq

/-- `pd.to_numeric(x, errors="coerce")` on one cell: numeric values pass
through, missing and non-numeric cells coerce to missing. -/
def to_numeric : RawCell → Option ℤ
  | .num z => some z
  | .na => none
  | .nonNumeric _ => none

/-- An IEEE-754 style division result: finite, infinite, or NaN. -/
inductive FVal where
  | fin (q : ℚ)
  | posInf
  | negInf
  | nan
deriving DecidableEq

/-- `num / den` under IEEE float semantics (`np.errstate` silences the
warnings; no exception is raised): missing operands propagate NaN, `0/0` is
NaN, `x/0` with `x ≠ 0` is a signed infinity, and otherwise the quotient is
the finite value `x / y`. -/
def fdiv (n d : Option ℤ) : FVal :=
  match n, d with
  | some x, some y =>
    if y = 0 then (if x = 0 then .nan else if 0 < x then .posInf else .negInf)
    else .fin (Rat.divInt x y)
  | _, _ => .nan

/-- `np.isfinite` on one value. -/
def isfinite : FVal → Bool
  | .fin _ => true
  | .posInf => false
  | .negInf => false
  | .nan => false

/-- `out[~np.isfinite(out)] = np.nan` on one value: finite results survive,
everything else becomes the missing marker. -/
def nan_mask : FVal → Option ℚ
  | .fin q => some q
  | .posInf => none
  | .negInf => none
  | .nan => none

/-- `_safe_div` (bbanalyze.py lines 50-56): coerce both operand sequences to
numeric, divide elementwise, and replace every non-finite result by the
missing marker. -/
def safe_div (num den : List RawCell) : List (Option ℚ) :=
  List.zipWith (fun n d => nan_mask (fdiv (to_numeric n) (to_numeric d))) num den

/-- `_safe_div` applied to one pair of already-numeric cells: this is how the
pipeline uses the helper on columns of the cleaned table and of the career
totals, where both operands are (sums of) non-missing numeric columns. -/
def safe_div_cell (n d : ℤ) : Option ℚ := nan_mask (fdiv (some n) (some d))

/-- One raw row of the input table (after `pd.read_csv`): every field may be
missing.  `ι` is the player identity type. -/
structure RawRow (ι : Type) where
  id : Option ι
  team : Option String
  lg : Option String
  year : Option ℤ
  g : Option ℤ
  ab : Option ℤ
  h : Option ℤ
  hr : Option ℤ
  rbi : Option ℤ
  sb : Option ℤ
  so : Option ℤ
  bb : Option ℤ
  hbp : Option ℤ
  sh : Option ℤ
  sf : Option ℤ
deriving DecidableEq

/-- A fully populated row, as rows of `bb = df.dropna()` are. -/
structure Row (ι : Type) where
  id : ι
  team : String
  lg : String
  year : ℤ
  g : ℤ
  ab : ℤ
  h : ℤ
  hr : ℤ
  rbi : ℤ
  sb : ℤ
  so : ℤ
  bb : ℤ
  hbp : ℤ
  sh : ℤ
  sf : ℤ
deriving DecidableEq

variable {ι : Type} [LinearOrder ι]

/-- A row has no missing value in any original column. -/
def RawRow.complete (r : RawRow ι) : Bool :=
  r.id.isSome && r.team.isSome && r.lg.isSome && r.year.isSome && r.g.isSome &&
  r.ab.isSome && r.h.isSome && r.hr.isSome && r.rbi.isSome && r.sb.isSome &&
  r.so.isSome && r.bb.isSome && r.hbp.isSome && r.sh.isSome && r.sf.isSome

/-- `df.dropna()` on one row: a complete row yields its fully populated view,
a row with any missing original column is dropped (`none`). -/
def toRow (r : RawRow ι) : Option (Row ι) := do
  let id ← r.id
  let team ← r.team
  let lg ← r.lg
  let year ← r.year
  let g ← r.g
  let ab ← r.ab
  let h ← r.h
  let hr ← r.hr
  let rbi ← r.rbi
  let sb ← r.sb
  let so ← r.so
  let bb ← r.bb
  let hbp ← r.hbp
  let sh ← r.sh
  let sf ← r.sf
  pure { id := id, team := team, lg := lg, year := year, g := g, ab := ab, h := h,
         hr := hr, rbi := rbi, sb := sb, so := so, bb := bb, hbp := hbp, sh := sh, sf := sf }

/-- The raw view of a fully populated row: every original column is a
non-missing cell. -/
def Row.raw (x : Row ι) : RawRow ι :=
  { id := some x.id, team := some x.team, lg := some x.lg, year := some x.year,
    g := some x.g, ab := some x.ab, h := some x.h, hr := some x.hr, rbi := some x.rbi,
    sb := some x.sb, so := some x.so, bb := some x.bb, hbp := some x.hbp,
    sh := some x.sh, sf := some x.sf }

/-- A row of the cleaned table `bb`: the original columns (all populated)
plus the two derived rate columns, which alone may be missing. -/
structure BBRow (ι : Type) where
  row : Row ι
  obp : Option ℚ
  pab : Option ℚ
deriving DecidableEq

/-- Lines 60-66: append the two derived rate columns to one cleaned row.
`obp = (h + bb + hbp) / (ab + bb + hbp)` and
`pab = (h + bb + hbp + sf + sh) / (ab + bb + hbp + sf + sh)`, via safe
division. -/
def addRates (x : Row ι) : BBRow ι :=
  { row := x,
    obp := safe_div_cell (x.h + x.bb + x.hbp) (x.ab + x.bb + x.hbp),
    pab := safe_div_cell (x.h + x.bb + x.hbp + x.sf + x.sh)
                         (x.ab + x.bb + x.hbp + x.sf + x.sh) }

/-- The cleaned table `bb` (lines 43-67): drop incomplete rows, then append
the derived columns. -/
def bb_table (rows : List (RawRow ι)) : List (BBRow ι) :=
  (rows.filterMap toRow).map addRates

/-- The original column order of the input table. -/
def orig_cols : List String :=
  ["id", "team", "lg", "year", "g", "ab", "h", "hr", "rbi", "sb", "so", "bb", "hbp", "sh", "sf"]

/-- Line 67, `bb = bb[_orig_cols + ["obp", "pab"]]`: the column order of the
cleaned table is the original order with the derived columns appended last. -/
def bb_cols : List String := orig_cols ++ ["obp", "pab"]

/-- `nunique`: the number of distinct values of a list (pandas drops missing
values before its `nunique`; callers below pass lists of present values). -/
def nunique {α : Type} [DecidableEq α] (l : List α) : Nat := l.dedup.length

/-- `bb.loc[bb["lg"] == "NL"]`. -/
def nl_dat (bbT : List (BBRow ι)) : List (BBRow ι) :=
  bbT.filter (fun b => decide (b.row.lg = "NL"))

/-- `bb.loc[bb["lg"] == "AL"]`. -/
def al_dat (bbT : List (BBRow ι)) : List (BBRow ι) :=
  bbT.filter (fun b => decide (b.row.lg = "AL"))

/-- `df["lg"].astype(str)` on one row: a present code passes through, a
missing code becomes the literal string "nan" (pandas stringifies NaN). -/
def lg_astype (r : RawRow ι) : String :=
  match r.lg with
  | some s => s
  | none => "nan"

/-- Lines 38-39, `df["lg"].astype(str).replace("", np.nan)`: stringify every
league cell, then turn empty strings back into missing values. -/
def lg_ser (rows : List (RawRow ι)) : List (Option String) :=
  rows.map (fun r => if lg_astype r = "" then none else some (lg_astype r))

/-- Line 39, `lg_ser.dropna().nunique()`. -/
def league_count (rows : List (RawRow ι)) : Nat :=
  nunique ((lg_ser rows).filterMap id)

/-- One career totals row (lines 92-99): the per-player sums of the eleven
counting statistics. -/
structure CareerRow (ι : Type) where
  id : ι
  g : ℤ
  ab : ℤ
  h : ℤ
  hr : ℤ
  rbi : ℤ
  sb : ℤ
  so : ℤ
  bb : ℤ
  hbp : ℤ
  sh : ℤ
  sf : ℤ
deriving DecidableEq

/-- The group keys of `bb.groupby("id")`: the distinct player identities, in
ascending order (pandas sorts group keys). -/
def player_ids (bbT : List (BBRow ι)) : List ι :=
  List.insertionSort (fun a b => a ≤ b) (bbT.map (fun b => b.row.id)).dedup

/-- The aggregation row of one group of `bb.groupby("id").agg(agg_cols)`:
each counting statistic summed over the rows of that player. -/
def career_for (bbT : List (BBRow ι)) (pid : ι) : CareerRow ι :=
  let rs := (bbT.filter (fun b => decide (b.row.id = pid))).map (fun b => b.row)
  { id := pid,
    g := (rs.map (fun x => x.g)).sum,
    ab := (rs.map (fun x => x.ab)).sum,
    h := (rs.map (fun x => x.h)).sum,
    hr := (rs.map (fun x => x.hr)).sum,
    rbi := (rs.map (fun x => x.rbi)).sum,
    sb := (rs.map (fun x => x.sb)).sum,
    so := (rs.map (fun x => x.so)).sum,
    bb := (rs.map (fun x => x.bb)).sum,
    hbp := (rs.map (fun x => x.hbp)).sum,
    sh := (rs.map (fun x => x.sh)).sum,
    sf := (rs.map (fun x => x.sf)).sum }

/-- Lines 96-99: group the cleaned table by player identity, sum the
counting statistics, and keep only players with `career["ab"] >= 50`. -/
def career_table (bbT : List (BBRow ι)) : List (CareerRow ι) :=
  ((player_ids bbT).map (career_for bbT)).filter (fun c => decide (50 ≤ c.ab))

/-- A career totals row extended with the eight derived rate columns
(lines 101-124); only these may be missing. -/
structure CareerExt (ι : Type) extends CareerRow ι where
  obp : Option ℚ
  pab : Option ℚ
  hrp : Option ℚ
  hp : Option ℚ
  sbp : Option ℚ
  sop : Option ℚ
  sopa : Option ℚ
  bbp : Option ℚ
deriving DecidableEq

/-- Lines 101-124: the eight career rate metrics, all through safe division.
(The defensive `replace([inf, -inf], nan)` of line 127 is a no-op here since
`safe_div_cell` already yields the missing marker for non-finite results.) -/
def add_career_rates (c : CareerRow ι) : CareerExt ι :=
  { c with
    obp := safe_div_cell (c.h + c.bb + c.hbp) (c.ab + c.bb + c.hbp),
    pab := safe_div_cell (c.h + c.bb + c.hbp + c.sf + c.sh)
                         (c.ab + c.bb + c.hbp + c.sf + c.sh),
    hrp := safe_div_cell c.hr c.ab,
    hp := safe_div_cell c.h c.ab,
    sbp := safe_div_cell c.sb c.ab,
    sop := safe_div_cell c.so c.ab,
    sopa := safe_div_cell c.so (c.ab + c.bb + c.hbp + c.sh + c.sf),
    bbp := safe_div_cell c.bb c.ab }

/-- The career table with rate columns attached. -/
def career_ext (bbT : List (BBRow ι)) : List (CareerExt ι) :=
  (career_table bbT).map add_career_rates

/-- The columns of the career frame, for the `metric not in df_` test of
`_stable_record`. -/
def career_cols : List String :=
  ["g", "ab", "h", "hr", "rbi", "sb", "so", "bb", "hbp", "sh", "sf",
   "obp", "pab", "hrp", "hp", "sbp", "sop", "sopa", "bbp"]

/-- `df_[metric]` on one career row; counting sums are never missing (they
are cast to float by the record finder), rate columns may be. -/
def metric_col (metric : String) (c : CareerExt ι) : Option ℚ :=
  match metric with
  | "g" => some (c.g : ℚ)
  | "ab" => some (c.ab : ℚ)
  | "h" => some (c.h : ℚ)
  | "hr" => some (c.hr : ℚ)
  | "rbi" => some (c.rbi : ℚ)
  | "sb" => some (c.sb : ℚ)
  | "so" => some (c.so : ℚ)
  | "bb" => some (c.bb : ℚ)
  | "hbp" => some (c.hbp : ℚ)
  | "sh" => some (c.sh : ℚ)
  | "sf" => some (c.sf : ℚ)
  | "obp" => c.obp
  | "pab" => c.pab
  | "hrp" => c.hrp
  | "hp" => c.hp
  | "sbp" => c.sbp
  | "sop" => c.sop
  | "sopa" => c.sopa
  | "bbp" => c.bbp
  | _ => none

/-- The record finder's result: `{"id": ..., "value": ...}`, with `none`
standing for Python `None` and for NaN respectively. -/
structure RecordEntry (ι : Type) where
  id : Option ι
  value : Option ℚ
deriving DecidableEq

/-- `tmp = df_.reset_index()[["id", metric]].dropna(subset=[metric])`
(line 138): the (identity, metric value) pairs with a present metric value. -/
def record_pool (df : List (CareerExt ι)) (metric : String) : List (ι × ℚ) :=
  (df.map (fun c => (c.id, metric_col metric c))).filterMap
    (fun p => match p.2 with
      | some v => some (p.1, v)
      | none => none)

/-- The ordering of `tmp.sort_values([metric, "id"], ascending=[False, True])`:
metric value descending, identity ascending on ties. -/
def recLE (a b : ι × ℚ) : Prop := b.2 < a.2 ∨ (a.2 = b.2 ∧ a.1 ≤ b.1)

instance recLE.instDecidableRel : DecidableRel (recLE (ι := ι)) := fun a b =>
  inferInstanceAs (Decidable (b.2 < a.2 ∨ (a.2 = b.2 ∧ a.1 ≤ b.1)))

/-- `_stable_record` (lines 130-143): unknown metric or empty pool yields the
absent entry; otherwise sort by value descending with identity-ascending
tie-break and take the first row. -/
def stable_record (df : List (CareerExt ι)) (metric : String) : RecordEntry ι :=
  if metric ∉ career_cols then { id := none, value := none }
  else
    match List.insertionSort recLE (record_pool df metric) with
    | [] => { id := none, value := none }
    | t :: _ => { id := some t.1, value := some t.2 }

/-- Lines 146-161: the fourteen record entries, in the order built. -/
def records_of (career : List (CareerExt ι)) : List (String × RecordEntry ι) :=
  [("obp", stable_record career "obp"),
   ("pab", stable_record career "pab"),
   ("hr", stable_record career "hr"),
   ("hrp", stable_record career "hrp"),
   ("h", stable_record career "h"),
   ("hp", stable_record career "hp"),
   ("sb", stable_record career "sb"),
   ("sbp", stable_record career "sbp"),
   ("so", stable_record career "so"),
   ("sop", stable_record career "sop"),
   ("sopa", stable_record career "sopa"),
   ("bb", stable_record career "bb"),
   ("bbp", stable_record career "bbp"),
   ("g", stable_record career "g")]

/-- The fourteen fixed metric names, in report order. -/
def metric_names : List String :=
  ["obp", "pab", "hr", "hrp", "h", "hp", "sb", "sbp", "so", "sop", "sopa", "bb", "bbp", "g"]

/-- A value of the `nl`/`al` sub-dictionaries. -/
inductive LeagueVal (ι : Type) where
  | dat (t : List (BBRow ι))
  | count (n : Nat)
deriving DecidableEq

/-- Lines 172-176 (and the identical lines 80-84): the `nl` sub-dictionary. -/
def nl_assoc (bbT : List (BBRow ι)) : List (String × LeagueVal ι) :=
  [("dat", .dat (nl_dat bbT)),
   ("players", .count (nunique ((nl_dat bbT).map (fun b => b.row.id)))),
   ("teams", .count (nunique ((nl_dat bbT).map (fun b => b.row.team))))]

/-- Lines 177-181: the `al` sub-dictionary. -/
def al_assoc (bbT : List (BBRow ι)) : List (String × LeagueVal ι) :=
  [("dat", .dat (al_dat bbT)),
   ("players", .count (nunique ((al_dat bbT).map (fun b => b.row.id)))),
   ("teams", .count (nunique ((al_dat bbT).map (fun b => b.row.team))))]

/-- A value of the report dictionary. -/
inductive ReportVal (ι : Type) where
  | count (n : Nat)
  | yrs (p : ℤ × ℤ)
  | table (t : List (BBRow ι))
  | league (l : List (String × LeagueVal ι))
  | recs (rs : List (String × RecordEntry ι))
deriving DecidableEq

/-- The columns the pipeline accesses; `df[c]` raises `KeyError` when `c` is
absent from the frame. -/
def required_cols : List String :=
  ["year", "id", "team", "lg", "g", "ab", "h", "hr", "rbi", "sb", "so", "bb", "hbp", "sh", "sf"]

/-- Lines 164-183: the report dictionary, with its exact keys in order.
`y :: ys` are the present values of the year column (nonempty, so that
`int(df["year"].min())` is defined). -/
def report_body (rows : List (RawRow ι)) (y : ℤ) (ys : List ℤ) :
    List (String × ReportVal ι) :=
  [("record.count", .count rows.length),
   ("complete.cases", .count (rows.filterMap toRow).length),
   ("years", .yrs (ys.foldl min y, ys.foldl max y)),
   ("player.count", .count (nunique (rows.filterMap (fun r => r.id)))),
   ("team.count", .count (nunique (rows.filterMap (fun r => r.team)))),
   ("league.count", .count (league_count rows)),
   ("bb", .table (bb_table rows)),
   ("nl", .league (nl_assoc (bb_table rows))),
   ("al", .league (al_assoc (bb_table rows))),
   ("records", .recs (records_of (career_ext (bb_table rows))))]

/-- `bbanalyze` (lines 8-186).  The input is the raw table together with its
column list.  A missing required column makes some `df[...]` access raise
`KeyError`; an all-missing (or empty) year column makes
`int(df["year"].min())` raise `ValueError`; otherwise the report is built
and returned.  (When several failures apply at once, only the fact of
failure, not which message, is modelled.) -/
def bbanalyze (cols : List String) (rows : List (RawRow ι)) :
    Except String (List (String × ReportVal ι)) :=
  if required_cols.all (fun c => cols.contains c) then
    match rows.filterMap (fun r => r.year) with
    | [] => .error "ValueError"
    | y :: ys => .ok (report_body rows y ys)
  else .error "KeyError"

/-! ### Order properties of the record-finder sort key -/

lemma recLE_refl (a : ι × ℚ) : recLE a a := Or.inr ⟨rfl, le_refl _⟩

lemma recLE_total (a b : ι × ℚ) : recLE a b ∨ recLE b a := by
  rcases lt_trichotomy a.2 b.2 with hlt | heq | hgt
  · exact Or.inr (Or.inl hlt)
  · rcases le_total a.1 b.1 with h | h
    · exact Or.inl (Or.inr ⟨heq, h⟩)
    · exact Or.inr (Or.inr ⟨heq.symm, h⟩)
  · exact Or.inl (Or.inl hgt)

lemma recLE_trans (a b c : ι × ℚ) (h1 : recLE a b) (h2 : recLE b c) : recLE a c := by
  rcases h1 with h1 | ⟨h1v, h1i⟩
  · rcases h2 with h2 | ⟨h2v, h2i⟩
    · exact Or.inl (h2.trans h1)
    · exact Or.inl (h2v ▸ h1)
  · rcases h2 with h2 | ⟨h2v, h2i⟩
    · exact Or.inl (h1v ▸ h2)
    · exact Or.inr ⟨h1v.trans h2v, h1i.trans h2i⟩

lemma recLE_antisymm {a b : ι × ℚ} (h1 : recLE a b) (h2 : recLE b a) : a = b := by
  rcases h1 with h1 | ⟨h1v, h1i⟩
  · rcases h2 with h2 | ⟨h2v, h2i⟩
    · exact absurd h2 (asymm h1)
    · exact absurd h1 (h2v ▸ lt_irrefl _)
  · rcases h2 with h2 | ⟨h2v, h2i⟩
    · exact absurd h2 (h1v ▸ lt_irrefl _)
    · exact Prod.ext (le_antisymm h1i h2i) h1v

instance : IsTotal (ι × ℚ) recLE := ⟨recLE_total⟩

instance : IsTrans (ι × ℚ) recLE := ⟨recLE_trans⟩

/-- The first row of the sorted pool is a member of the pool and is below
every pool element in the (value descending, identity ascending) order. -/
lemma insertionSort_head_min {l : List (ι × ℚ)} {t : ι × ℚ} {rest : List (ι × ℚ)}
    (h : List.insertionSort recLE l = t :: rest) :
    t ∈ l ∧ ∀ x ∈ l, recLE t x := by
  have hs := List.sorted_insertionSort recLE l
  have hp := List.perm_insertionSort recLE l
  rw [h] at hs hp
  refine ⟨hp.mem_iff.mp (List.mem_cons_self _ _), ?_⟩
  intro x hx
  rcases List.mem_cons.mp (hp.mem_iff.mpr hx) with rfl | hxr
  · exact recLE_refl _
  · exact (List.sorted_cons.mp hs).1 x hxr

/-! ### Characterization of the record finder -/

lemma stable_record_cases (df : List (CareerExt ι)) (metric : String) :
    stable_record df metric = { id := none, value := none } ∨
    ∃ pid v, stable_record df metric = { id := some pid, value := some v } := by
  unfold stable_record
  split
  · exact Or.inl rfl
  · split
    · exact Or.inl rfl
    · exact Or.inr ⟨_, _, rfl⟩

lemma stable_record_eq_some {df : List (CareerExt ι)} {metric : String} {pid : ι} {v : ℚ}
    (h : stable_record df metric = { id := some pid, value := some v }) :
    (pid, v) ∈ record_pool df metric ∧ ∀ x ∈ record_pool df metric, recLE (pid, v) x := by
  unfold stable_record at h
  split at h
  · exact absurd h (by simp)
  · split at h
    · exact absurd h (by simp)
    · rename_i t rest hsort
      have hmk : t = (pid, v) := by
        have h1 : some t.1 = some pid := congrArg RecordEntry.id h
        have h2 : some t.2 = some v := congrArg RecordEntry.value h
        exact Prod.ext (Option.some.inj h1) (Option.some.inj h2)
      rw [← hmk]
      exact insertionSort_head_min hsort

lemma stable_record_eq_none_iff (df : List (CareerExt ι)) (metric : String) :
    stable_record df metric = { id := none, value := none } ↔
    (metric ∉ career_cols ∨ record_pool df metric = []) := by
  unfold stable_record
  split
  · rename_i hnot
    simp [hnot]
  · rename_i hmem
    split
    · rename_i hnil
      have hp := List.perm_insertionSort recLE (record_pool df metric)
      rw [hnil] at hp
      simp [hmem, hp.symm.eq_nil]
    · rename_i t rest hcons
      have hp := List.perm_insertionSort recLE (record_pool df metric)
      rw [hcons] at hp
      have hne : record_pool df metric ≠ [] := by
        intro h0
        rw [h0] at hp
        exact absurd hp.eq_nil (by simp)
      simp [hmem, hne]

lemma record_pool_perm {df df' : List (CareerExt ι)} (h : df.Perm df') (metric : String) :
    (record_pool df metric).Perm (record_pool df' metric) :=
  (h.map _).filterMap _

lemma stable_record_perm {df df' : List (CareerExt ι)} (h : df.Perm df') (metric : String) :
    stable_record df metric = stable_record df' metric := by
  rcases stable_record_cases df metric with h0 | ⟨pid, v, hs⟩
  · rcases (stable_record_eq_none_iff df metric).mp h0 with hnc | hemp
    · rw [h0, (stable_record_eq_none_iff df' metric).mpr (Or.inl hnc)]
    · have : record_pool df' metric = [] := by
        have hp := record_pool_perm h metric
        rw [hemp] at hp
        exact hp.symm.eq_nil
      rw [h0, (stable_record_eq_none_iff df' metric).mpr (Or.inr this)]
  · obtain ⟨hmem, hmin⟩ := stable_record_eq_some hs
    have hpool := record_pool_perm h metric
    rcases stable_record_cases df' metric with h0' | ⟨pid', v', hs'⟩
    · rcases (stable_record_eq_none_iff df' metric).mp h0' with hnc | hemp
      · have : stable_record df metric = { id := none, value := none } :=
          (stable_record_eq_none_iff df metric).mpr (Or.inl hnc)
        rw [hs] at this
        exact absurd this (by simp)
      · rw [hemp] at hpool
        exact absurd (hpool.mem_iff.mp hmem) (by simp)
    · obtain ⟨hmem', hmin'⟩ := stable_record_eq_some hs'
      have heq : (pid', v') = (pid, v) :=
        recLE_antisymm (hmin' _ (hpool.mem_iff.mp hmem)) (hmin _ (hpool.mem_iff.mpr hmem'))
      have h1 : pid' = pid := congrArg Prod.fst heq
      have h2 : v' = v := congrArg Prod.snd heq
      rw [hs, hs', h1, h2]

lemma record_pool_mem {df : List (CareerExt ι)} {m : String} {p : ι × ℚ}
    (h : p ∈ record_pool df m) : ∃ c ∈ df, c.id = p.1 := by
  unfold record_pool at h
  obtain ⟨q, hq, hpq⟩ := List.mem_filterMap.mp h
  obtain ⟨c, hc, rfl⟩ := List.mem_map.mp hq
  refine ⟨c, hc, ?_⟩
  cases hmc : metric_col m c with
  | none => rw [hmc] at hpq; exact absurd hpq (by simp)
  | some v =>
    rw [hmc] at hpq
    exact congrArg Prod.fst (Option.some.inj hpq)

/-- C1: on every Career Totals table and metric, the Record Finder returns the
entry whose metric value (ignoring missing values) is maximal; among players
sharing that maximal value it returns the minimum player identity; and the
returned (identity, value) pair is unchanged under any permutation of the
table's rows. -/
theorem record_finder_deterministic_max
    (df df' : List (CareerExt ι)) (metric : String) (pid : ι) (v : ℚ)
    (hperm : df.Perm df')
    (hres : stable_record df metric = { id := some pid, value := some v }) :
    stable_record df' metric = { id := some pid, value := some v } ∧
    (pid, v) ∈ record_pool df metric ∧
    (∀ x ∈ record_pool df metric, x.2 ≤ v) ∧
    (∀ x ∈ record_pool df metric, x.2 = v → pid ≤ x.1) := by
  obtain ⟨hmem, hmin⟩ := stable_record_eq_some hres
  refine ⟨by rw [← stable_record_perm hperm metric]; exact hres, hmem, ?_, ?_⟩
  · intro x hx
    rcases hmin x hx with hlt | ⟨hv, _⟩
    · exact le_of_lt hlt
    · exact le_of_eq hv.symm
  · intro x hx hxv
    rcases hmin x hx with hlt | ⟨_, hle⟩
    · rw [hxv] at hlt
      exact absurd hlt (lt_irrefl v)
    · exact hle

/-- Witness for C1: a two-player Career Totals table with a tied maximal
home-run count (identities 3 and 1); the minimum identity 1 wins, also after
swapping the two rows, its value bounds the tied rival, and the tie resolves
to the smaller identity. -/
theorem record_finder_deterministic_max_witness :
    stable_record
        [{ id := 3, g := 5, ab := 60, h := 20, hr := 7, rbi := 3, sb := 2, so := 10, bb := 4,
           hbp := 1, sh := 0, sf := 0, obp := none, pab := none, hrp := none, hp := none,
           sbp := none, sop := none, sopa := none, bbp := none },
         { id := 1, g := 5, ab := 55, h := 18, hr := 7, rbi := 3, sb := 2, so := 10, bb := 4,
           hbp := 1, sh := 0, sf := 0, obp := none, pab := none, hrp := none, hp := none,
           sbp := none, sop := none, sopa := none, bbp := none }] "hr" =
      { id := some (1 : ℕ), value := some 7 } ∧
    ((1 : ℕ), (7 : ℚ)) ∈ record_pool
        [{ id := 1, g := 5, ab := 55, h := 18, hr := 7, rbi := 3, sb := 2, so := 10, bb := 4,
           hbp := 1, sh := 0, sf := 0, obp := none, pab := none, hrp := none, hp := none,
           sbp := none, sop := none, sopa := none, bbp := none },
         { id := 3, g := 5, ab := 60, h := 20, hr := 7, rbi := 3, sb := 2, so := 10, bb := 4,
           hbp := 1, sh := 0, sf := 0, obp := none, pab := none, hrp := none, hp := none,
           sbp := none, sop := none, sopa := none, bbp := none }] "hr" ∧
    (((3 : ℕ), (7 : ℚ)).2 ≤ (7 : ℚ)) ∧
    (((3 : ℕ), (7 : ℚ)).2 = (7 : ℚ) → (1 : ℕ) ≤ ((3 : ℕ), (7 : ℚ)).1) := by
  have T := record_finder_deterministic_max
    [{ id := 1, g := 5, ab := 55, h := 18, hr := 7, rbi := 3, sb := 2, so := 10, bb := 4,
       hbp := 1, sh := 0, sf := 0, obp := none, pab := none, hrp := none, hp := none,
       sbp := none, sop := none, sopa := none, bbp := none },
     { id := 3, g := 5, ab := 60, h := 20, hr := 7, rbi := 3, sb := 2, so := 10, bb := 4,
       hbp := 1, sh := 0, sf := 0, obp := none, pab := none, hrp := none, hp := none,
       sbp := none, sop := none, sopa := none, bbp := none }]
    [{ id := 3, g := 5, ab := 60, h := 20, hr := 7, rbi := 3, sb := 2, so := 10, bb := 4,
       hbp := 1, sh := 0, sf := 0, obp := none, pab := none, hrp := none, hp := none,
       sbp := none, sop := none, sopa := none, bbp := none },
     { id := 1, g := 5, ab := 55, h := 18, hr := 7, rbi := 3, sb := 2, so := 10, bb := 4,
       hbp := 1, sh := 0, sf := 0, obp := none, pab := none, hrp := none, hp := none,
       sbp := none, sop := none, sopa := none, bbp := none }]
    "hr" 1 7 (List.Perm.swap _ _ _) (by decide)
  exact ⟨T.1, T.2.1, T.2.2.1 (3, 7) (by decide), fun hv => T.2.2.2 (3, 7) (by decide) hv⟩

lemma safe_div_getElem {num den : List RawCell} {i : ℕ} {n d : RawCell}
    (h1 : num[i]? = some n) (h2 : den[i]? = some d) :
    (safe_div num den)[i]? = some (nan_mask (fdiv (to_numeric n) (to_numeric d))) := by
  unfold safe_div
  rw [List.getElem?_zipWith, h1, h2]

/-- C2: on equal-length numerator and denominator sequences, Safe Division is
elementwise division: where both cells are numeric and the denominator is
nonzero the result is the exact quotient, while a non-numeric or missing cell
on either side, or a zero denominator (infinite or 0/0 result), yields the
missing-value marker.  The function is total, so no exception is raised for
any zero denominator. -/
theorem safe_div_correct (num den : List RawCell) (hlen : num.length = den.length) :
    (safe_div num den).length = num.length ∧
    ∀ (i : ℕ) (n d : RawCell), num[i]? = some n → den[i]? = some d →
      ((∀ (x y : ℤ), to_numeric n = some x → to_numeric d = some y → y ≠ 0 →
          (safe_div num den)[i]? = some (some ((x : ℚ) / (y : ℚ)))) ∧
       (to_numeric n = none ∨ to_numeric d = none ∨ to_numeric d = some 0 →
          (safe_div num den)[i]? = some none)) := by
  constructor
  · unfold safe_div
    rw [List.length_zipWith, hlen, min_self]
  · intro i n d h1 h2
    constructor
    · intro x y hx hy hy0
      rw [safe_div_getElem h1 h2, hx, hy]
      simp [fdiv, hy0, nan_mask, Rat.divInt_eq_div]
    · intro hcase
      rw [safe_div_getElem h1 h2]
      rcases hcase with hn | hd | hd0
      · rw [hn]
        cases to_numeric d <;> rfl
      · rw [hd]
        cases to_numeric n <;> rfl
      · rw [hd0]
        cases hx : to_numeric n with
        | none => rfl
        | some x =>
          simp only [fdiv, if_pos rfl]
          split_ifs <;> rfl

/-- Witness for C2: a three-element division with a defined quotient, a
nonzero-over-zero, and a missing numerator. -/
theorem safe_div_correct_witness :
    (safe_div [RawCell.num 1, RawCell.num 5, RawCell.na]
        [RawCell.num 2, RawCell.num 0, RawCell.num 1]).length =
      [RawCell.num 1, RawCell.num 5, RawCell.na].length ∧
    (safe_div [RawCell.num 1, RawCell.num 5, RawCell.na]
        [RawCell.num 2, RawCell.num 0, RawCell.num 1])[0]? =
      some (some ((1 : ℚ) / (2 : ℚ))) ∧
    (safe_div [RawCell.num 1, RawCell.num 5, RawCell.na]
        [RawCell.num 2, RawCell.num 0, RawCell.num 1])[1]? = some none ∧
    (safe_div [RawCell.num 1, RawCell.num 5, RawCell.na]
        [RawCell.num 2, RawCell.num 0, RawCell.num 1])[2]? = some none := by
  have T := safe_div_correct [RawCell.num 1, RawCell.num 5, RawCell.na]
    [RawCell.num 2, RawCell.num 0, RawCell.num 1] rfl
  refine ⟨T.1, ?_, ?_, ?_⟩
  · exact (T.2 0 (.num 1) (.num 2) rfl rfl).1 1 2 rfl rfl (by decide)
  · exact (T.2 1 (.num 5) (.num 0) rfl rfl).2 (Or.inr (Or.inr rfl))
  · exact (T.2 2 .na (.num 1) rfl rfl).2 (Or.inl rfl)

lemma raw_complete (x : Row ι) : (x.raw).complete = true := rfl

lemma toRow_eq_some {r : RawRow ι} {x : Row ι} (h : toRow r = some x) :
    r = x.raw ∧ r.complete = true := by
  rcases r with ⟨i, t, l, y, g, a, hh, hhr, hrbi, hsb, hso, hbb, hhbp, hsh, hsf⟩
  rcases i with _ | iv
  · exact Option.noConfusion h
  rcases t with _ | tv
  · exact Option.noConfusion h
  rcases l with _ | lv
  · exact Option.noConfusion h
  rcases y with _ | yv
  · exact Option.noConfusion h
  rcases g with _ | gv
  · exact Option.noConfusion h
  rcases a with _ | av
  · exact Option.noConfusion h
  rcases hh with _ | hv
  · exact Option.noConfusion h
  rcases hhr with _ | hrv
  · exact Option.noConfusion h
  rcases hrbi with _ | rbv
  · exact Option.noConfusion h
  rcases hsb with _ | sbv
  · exact Option.noConfusion h
  rcases hso with _ | sov
  · exact Option.noConfusion h
  rcases hbb with _ | bbv
  · exact Option.noConfusion h
  rcases hhbp with _ | hbv
  · exact Option.noConfusion h
  rcases hsh with _ | shv
  · exact Option.noConfusion h
  rcases hsf with _ | sfv
  · exact Option.noConfusion h
  have hx := Option.some.inj h
  subst hx
  exact ⟨rfl, rfl⟩

/-- C3: every row of the cleaned table `bb` arises from an input row that is
complete (non-missing) in every original column; the cleaned row consists of
exactly those original columns plus the two derived columns, which are the
only fields that may be missing; and the column order is the original order
with `obp` and `pab` appended last. -/
theorem cleaned_table_completeness (rows : List (RawRow ι)) (b : BBRow ι)
    (hb : b ∈ bb_table rows) :
    (∃ r ∈ rows, r.complete = true ∧ toRow r = some b.row ∧ r = b.row.raw) ∧
    b = addRates b.row ∧
    bb_cols = orig_cols ++ ["obp", "pab"] := by
  obtain ⟨x, hx, rfl⟩ := List.mem_map.mp hb
  obtain ⟨r, hr, hrx⟩ := List.mem_filterMap.mp hx
  obtain ⟨hraw, hcomp⟩ := toRow_eq_some hrx
  exact ⟨⟨r, hr, hcomp, hrx, hraw⟩, rfl, rfl⟩

/-- Witness for C3: a two-row table with one complete row and one row whose
hit count is missing; the cleaned table holds the complete row with its
derived rates (equal to one here) appended. -/
theorem cleaned_table_completeness_witness :
    (∃ r ∈ [({ id := some 1, team := some "T1", lg := some "NL", year := some 2004,
               g := some 10, ab := some 20, h := some 20, hr := some 7, rbi := some 3,
               sb := some 2, so := some 5, bb := some 2, hbp := some 1, sh := some 0,
               sf := some 0 } : RawRow ℕ),
            { id := some 2, team := some "T1", lg := some "AL", year := some 2004,
              g := some 10, ab := some 20, h := none, hr := some 7, rbi := some 3,
              sb := some 2, so := some 5, bb := some 2, hbp := some 1, sh := some 0,
              sf := some 0 }],
       r.complete = true ∧
       toRow r = some ({ row := { id := 1, team := "T1", lg := "NL", year := 2004, g := 10,
                                  ab := 20, h := 20, hr := 7, rbi := 3, sb := 2, so := 5,
                                  bb := 2, hbp := 1, sh := 0, sf := 0 },
                         obp := some 1, pab := some 1 } : BBRow ℕ).row ∧
       r = ({ row := { id := 1, team := "T1", lg := "NL", year := 2004, g := 10, ab := 20,
                       h := 20, hr := 7, rbi := 3, sb := 2, so := 5, bb := 2, hbp := 1,
                       sh := 0, sf := 0 },
              obp := some 1, pab := some 1 } : BBRow ℕ).row.raw) ∧
    ({ row := { id := 1, team := "T1", lg := "NL", year := 2004, g := 10, ab := 20, h := 20,
                hr := 7, rbi := 3, sb := 2, so := 5, bb := 2, hbp := 1, sh := 0, sf := 0 },
       obp := some 1, pab := some 1 } : BBRow ℕ) =
      addRates ({ row := { id := 1, team := "T1", lg := "NL", year := 2004, g := 10, ab := 20,
                           h := 20, hr := 7, rbi := 3, sb := 2, so := 5, bb := 2, hbp := 1,
                           sh := 0, sf := 0 },
                  obp := some 1, pab := some 1 } : BBRow ℕ).row ∧
    bb_cols = orig_cols ++ ["obp", "pab"] :=
  cleaned_table_completeness _ _ (by decide)

lemma records_of_mem {df : List (CareerExt ι)} {m : String} {e : RecordEntry ι}
    (h : (m, e) ∈ records_of df) : e = stable_record df m := by
  have hr : records_of df = metric_names.map (fun n => (n, stable_record df n)) := rfl
  rw [hr] at h
  obtain ⟨n, hn, heq⟩ := List.mem_map.mp h
  have h1 : n = m := congrArg Prod.fst heq
  subst h1
  exact (congrArg Prod.snd heq).symm

/-- C4: every Career Totals record has summed at-bats of at least 50, and the
winning identity of any of the fourteen record entries always belongs to a
career record with summed at-bats of at least 50 (so a player below the
threshold never wins a record). -/
theorem career_threshold_excluded (rows : List (RawRow ι)) :
    (∀ c ∈ career_table (bb_table rows), 50 ≤ c.ab) ∧
    (∀ (m : String) (e : RecordEntry ι) (pid : ι),
      (m, e) ∈ records_of (career_ext (bb_table rows)) → e.id = some pid →
      ∃ c ∈ career_table (bb_table rows), c.id = pid ∧ 50 ≤ c.ab) := by
  have hthr : ∀ c ∈ career_table (bb_table rows), 50 ≤ c.ab := by
    intro c hc
    have h2 := (List.mem_filter.mp hc).2
    simpa using h2
  refine ⟨hthr, ?_⟩
  intro m e pid hmem hid
  obtain rfl := records_of_mem hmem
  rcases stable_record_cases (career_ext (bb_table rows)) m with h0 | ⟨pid', v, hs⟩
  · rw [h0] at hid
    exact absurd hid (by simp)
  · obtain ⟨hpmem, _⟩ := stable_record_eq_some hs
    rw [hs] at hid
    have hpp : pid' = pid := Option.some.inj hid
    subst hpp
    obtain ⟨cx, hcx, hcid⟩ := record_pool_mem hpmem
    obtain ⟨c, hc, rfl⟩ := List.mem_map.mp hcx
    exact ⟨c, hc, hcid, hthr c hc⟩

/-- Witness for C4: a table where player 1 qualifies (55 career at-bats over
two stints) and player 2 does not (10 at-bats, despite 9 home runs); the
home-run record still names player 1, a player with at least 50 at-bats. -/
theorem career_threshold_excluded_witness :
    50 ≤ ({ id := 1, g := 22, ab := 55, h := 18, hr := 7, rbi := 5, sb := 3, so := 11,
            bb := 5, hbp := 1, sh := 0, sf := 1 } : CareerRow ℕ).ab ∧
    ∃ c ∈ career_table (bb_table
        [({ id := some 1, team := some "T1", lg := some "NL", year := some 2004,
            g := some 10, ab := some 30, h := some 10, hr := some 4, rbi := some 3,
            sb := some 2, so := some 5, bb := some 2, hbp := some 1, sh := some 0,
            sf := some 0 } : RawRow ℕ),
         { id := some 1, team := some "T1", lg := some "NL", year := some 2005,
           g := some 12, ab := some 25, h := some 8, hr := some 3, rbi := some 2,
           sb := some 1, so := some 6, bb := some 3, hbp := some 0, sh := some 0,
           sf := some 1 },
         { id := some 2, team := some "T2", lg := some "AL", year := some 2004,
           g := some 4, ab := some 10, h := some 5, hr := some 9, rbi := some 1,
           sb := some 0, so := some 2, bb := some 1, hbp := some 0, sh := some 0,
           sf := some 0 }]), c.id = 1 ∧ 50 ≤ c.ab := by
  have T := career_threshold_excluded
    [({ id := some 1, team := some "T1", lg := some "NL", year := some 2004,
        g := some 10, ab := some 30, h := some 10, hr := some 4, rbi := some 3,
        sb := some 2, so := some 5, bb := some 2, hbp := some 1, sh := some 0,
        sf := some 0 } : RawRow ℕ),
     { id := some 1, team := some "T1", lg := some "NL", year := some 2005,
       g := some 12, ab := some 25, h := some 8, hr := some 3, rbi := some 2,
       sb := some 1, so := some 6, bb := some 3, hbp := some 0, sh := some 0,
       sf := some 1 },
     { id := some 2, team := some "T2", lg := some "AL", year := some 2004,
       g := some 4, ab := some 10, h := some 5, hr := some 9, rbi := some 1,
       sb := some 0, so := some 2, bb := some 1, hbp := some 0, sh := some 0,
       sf := some 0 }]
  exact ⟨T.1 _ (by decide),
    T.2 "hr" { id := some 1, value := some 7 } 1 (by decide) rfl⟩

/-- C5: when, after dropping records whose metric value is missing, no
records remain (for instance because no player meets the at-bats threshold or
every value of the metric is missing), the Record Finder returns the entry
with absent identity and not-a-number value; and for any input that passes
the column and year-column accesses, the report is still produced. -/
theorem empty_pool_record (df : List (CareerExt ι)) (metric : String)
    (hpool : record_pool df metric = []) :
    stable_record df metric = { id := none, value := none } ∧
    ∀ (cols : List String) (rows : List (RawRow ι)) (y : ℤ) (ys : List ℤ),
      required_cols.all (fun c => cols.contains c) = true →
      rows.filterMap (fun r => r.year) = y :: ys →
      bbanalyze cols rows = .ok (report_body rows y ys) := by
  refine ⟨(stable_record_eq_none_iff df metric).mpr (Or.inr hpool), ?_⟩
  intro cols rows y ys hcols hy
  unfold bbanalyze
  rw [hcols, hy]
  rfl

/-- Witness for C5: a career table whose single row has a missing `obp`
value, so the `obp` pool is empty; and a one-row input table (player below
the threshold) on which the report is still produced. -/
theorem empty_pool_record_witness :
    stable_record
        [({ id := 1, g := 4, ab := 10, h := 5, hr := 2, rbi := 1, sb := 0, so := 2, bb := 1,
            hbp := 0, sh := 0, sf := 0, obp := none, pab := none, hrp := none, hp := none,
            sbp := none, sop := none, sopa := none, bbp := none } : CareerExt ℕ)] "obp" =
      { id := none, value := none } ∧
    bbanalyze required_cols
        [({ id := some 1, team := some "T1", lg := some "NL", year := some 2004,
            g := some 4, ab := some 10, h := some 5, hr := some 2, rbi := some 1,
            sb := some 0, so := some 2, bb := some 1, hbp := some 0, sh := some 0,
            sf := some 0 } : RawRow ℕ)] =
      .ok (report_body
        [({ id := some 1, team := some "T1", lg := some "NL", year := some 2004,
            g := some 4, ab := some 10, h := some 5, hr := some 2, rbi := some 1,
            sb := some 0, so := some 2, bb := some 1, hbp := some 0, sh := some 0,
            sf := some 0 } : RawRow ℕ)] 2004 []) := by
  have T := empty_pool_record
    [({ id := 1, g := 4, ab := 10, h := 5, hr := 2, rbi := 1, sb := 0, so := 2, bb := 1,
        hbp := 0, sh := 0, sf := 0, obp := none, pab := none, hrp := none, hp := none,
        sbp := none, sop := none, sopa := none, bbp := none } : CareerExt ℕ)] "obp" rfl
  exact ⟨T.1, T.2 required_cols _ 2004 [] (by decide) rfl⟩

/-- C6 counterexample: on an input table whose `year` column is entirely
absent, `bbanalyze` fails with a KeyError (from `df["year"]`) instead of
coercing and returning a Report, contradicting the claim. -/
theorem missing_year_column_fails :
    bbanalyze (ι := ℕ)
      ["id", "team", "lg", "g", "ab", "h", "hr", "rbi", "sb", "so", "bb", "hbp", "sh", "sf"]
      [{ id := some 1, team := some "T1", lg := some "NL", year := none, g := some 10,
         ab := some 60, h := some 20, hr := some 3, rbi := some 4, sb := some 1,
         so := some 5, bb := some 2, hbp := some 1, sh := some 0, sf := some 0 }] =
    .error "KeyError" := rfl

/-- C6 (amended): an input table missing a required column makes the
pipeline fail hard (pandas raises `KeyError` on the column access) rather
than returning a Report; when all required columns are present (and the year
column has a numeric entry), row-level missing values are dropped during
cleaning — no cleaned row originates from an incomplete raw row — and a
Report is returned. -/
theorem malformed_input_handling (cols : List String) (rows : List (RawRow ι)) :
    (required_cols.all (fun c => cols.contains c) = false →
      bbanalyze cols rows = .error "KeyError") ∧
    (required_cols.all (fun c => cols.contains c) = true →
      ∀ (y : ℤ) (ys : List ℤ), rows.filterMap (fun r => r.year) = y :: ys →
        bbanalyze cols rows = .ok (report_body rows y ys) ∧
        ∀ r ∈ rows, r.complete = false → ∀ b ∈ bb_table rows, b.row.raw ≠ r) := by
  constructor
  · intro hf
    unfold bbanalyze
    rw [hf]
    rfl
  · intro ht y ys hy
    refine ⟨by unfold bbanalyze; rw [ht, hy]; rfl, ?_⟩
    intro r hr hrc b hb hbr
    rw [← hbr, raw_complete] at hrc
    exact Bool.noConfusion hrc

/-- Witness for C6: dropping the whole column list yields the KeyError;
a two-row table (one complete row, one row with a missing hit count) yields
a report whose cleaned table does not contain the incomplete row. -/
theorem malformed_input_handling_witness :
    bbanalyze ["id"] ([] : List (RawRow ℕ)) = .error "KeyError" ∧
    bbanalyze required_cols
        [({ id := some 1, team := some "T1", lg := some "NL", year := some 2004,
            g := some 10, ab := some 20, h := some 20, hr := some 7, rbi := some 3,
            sb := some 2, so := some 5, bb := some 2, hbp := some 1, sh := some 0,
            sf := some 0 } : RawRow ℕ),
         { id := some 2, team := some "T1", lg := some "AL", year := none,
           g := some 10, ab := some 20, h := none, hr := some 7, rbi := some 3,
           sb := some 2, so := some 5, bb := some 2, hbp := some 1, sh := some 0,
           sf := some 0 }] =
      .ok (report_body
        [({ id := some 1, team := some "T1", lg := some "NL", year := some 2004,
            g := some 10, ab := some 20, h := some 20, hr := some 7, rbi := some 3,
            sb := some 2, so := some 5, bb := some 2, hbp := some 1, sh := some 0,
            sf := some 0 } : RawRow ℕ),
         { id := some 2, team := some "T1", lg := some "AL", year := none,
           g := some 10, ab := some 20, h := none, hr := some 7, rbi := some 3,
           sb := some 2, so := some 5, bb := some 2, hbp := some 1, sh := some 0,
           sf := some 0 }] 2004 []) ∧
    ({ row := { id := 1, team := "T1", lg := "NL", year := 2004, g := 10, ab := 20, h := 20,
                hr := 7, rbi := 3, sb := 2, so := 5, bb := 2, hbp := 1, sh := 0, sf := 0 },
       obp := some 1, pab := some 1 } : BBRow ℕ).row.raw ≠
      { id := some 2, team := some "T1", lg := some "AL", year := none,
        g := some 10, ab := some 20, h := none, hr := some 7, rbi := some 3,
        sb := some 2, so := some 5, bb := some 2, hbp := some 1, sh := some 0,
        sf := some 0 } := by
  have T := (malformed_input_handling required_cols
    [({ id := some 1, team := some "T1", lg := some "NL", year := some 2004,
        g := some 10, ab := some 20, h := some 20, hr := some 7, rbi := some 3,
        sb := some 2, so := some 5, bb := some 2, hbp := some 1, sh := some 0,
        sf := some 0 } : RawRow ℕ),
     { id := some 2, team := some "T1", lg := some "AL", year := none,
       g := some 10, ab := some 20, h := none, hr := some 7, rbi := some 3,
       sb := some 2, so := some 5, bb := some 2, hbp := some 1, sh := some 0,
       sf := some 0 }]).2 (by decide) 2004 [] rfl
  exact ⟨(malformed_input_handling ["id"] []).1 (by decide), T.1,
    T.2 _ (by decide) (by decide) _ (by decide)⟩

lemma mem_nl_dat {bbT : List (BBRow ι)} {b : BBRow ι} :
    b ∈ nl_dat bbT ↔ b ∈ bbT ∧ b.row.lg = "NL" := by
  simp [nl_dat, List.mem_filter]

lemma mem_al_dat {bbT : List (BBRow ι)} {b : BBRow ι} :
    b ∈ al_dat bbT ↔ b ∈ bbT ∧ b.row.lg = "AL" := by
  simp [al_dat, List.mem_filter]

/-- C7: every cleaned-table row whose league code is exactly "NL" or exactly
"AL" lies in precisely the matching League Subset and not in the other, and a
row with any other league code (empty included) lies in neither subset. -/
theorem league_partition (rows : List (RawRow ι)) (b : BBRow ι)
    (hb : b ∈ bb_table rows) :
    (b.row.lg = "NL" → b ∈ nl_dat (bb_table rows) ∧ b ∉ al_dat (bb_table rows)) ∧
    (b.row.lg = "AL" → b ∈ al_dat (bb_table rows) ∧ b ∉ nl_dat (bb_table rows)) ∧
    (b.row.lg ≠ "NL" → b.row.lg ≠ "AL" →
      b ∉ nl_dat (bb_table rows) ∧ b ∉ al_dat (bb_table rows)) := by
  refine ⟨fun h => ⟨mem_nl_dat.mpr ⟨hb, h⟩, fun hmem => ?_⟩,
          fun h => ⟨mem_al_dat.mpr ⟨hb, h⟩, fun hmem => ?_⟩,
          fun h1 h2 => ⟨fun hmem => h1 (mem_nl_dat.mp hmem).2,
                        fun hmem => h2 (mem_al_dat.mp hmem).2⟩⟩
  · have hal := (mem_al_dat.mp hmem).2
    rw [h] at hal
    exact absurd hal (by decide)
  · have hnl := (mem_nl_dat.mp hmem).2
    rw [h] at hnl
    exact absurd hnl (by decide)

/-- Witness for C7: a three-row table with league codes "NL", "AL" and the
empty string; each row lands exactly where the partition prescribes. -/
theorem league_partition_witness :
    (({ row := { id := 1, team := "T1", lg := "NL", year := 2004, g := 10, ab := 20, h := 20,
                 hr := 7, rbi := 3, sb := 2, so := 5, bb := 2, hbp := 1, sh := 0, sf := 0 },
        obp := some 1, pab := some 1 } : BBRow ℕ) ∈ nl_dat (bb_table
        [({ id := some 1, team := some "T1", lg := some "NL", year := some 2004,
            g := some 10, ab := some 20, h := some 20, hr := some 7, rbi := some 3,
            sb := some 2, so := some 5, bb := some 2, hbp := some 1, sh := some 0,
            sf := some 0 } : RawRow ℕ),
         { id := some 2, team := some "T2", lg := some "AL", year := some 2004,
           g := some 10, ab := some 20, h := some 20, hr := some 7, rbi := some 3,
           sb := some 2, so := some 5, bb := some 2, hbp := some 1, sh := some 0,
           sf := some 0 },
         { id := some 3, team := some "T3", lg := some "", year := some 2004,
           g := some 10, ab := some 20, h := some 20, hr := some 7, rbi := some 3,
           sb := some 2, so := some 5, bb := some 2, hbp := some 1, sh := some 0,
           sf := some 0 }]) ∧
      ({ row := { id := 1, team := "T1", lg := "NL", year := 2004, g := 10, ab := 20, h := 20,
                  hr := 7, rbi := 3, sb := 2, so := 5, bb := 2, hbp := 1, sh := 0, sf := 0 },
         obp := some 1, pab := some 1 } : BBRow ℕ) ∉ al_dat (bb_table
        [({ id := some 1, team := some "T1", lg := some "NL", year := some 2004,
            g := some 10, ab := some 20, h := some 20, hr := some 7, rbi := some 3,
            sb := some 2, so := some 5, bb := some 2, hbp := some 1, sh := some 0,
            sf := some 0 } : RawRow ℕ),
         { id := some 2, team := some "T2", lg := some "AL", year := some 2004,
           g := some 10, ab := some 20, h := some 20, hr := some 7, rbi := some 3,
           sb := some 2, so := some 5, bb := some 2, hbp := some 1, sh := some 0,
           sf := some 0 },
         { id := some 3, team := some "T3", lg := some "", year := some 2004,
           g := some 10, ab := some 20, h := some 20, hr := some 7, rbi := some 3,
           sb := some 2, so := some 5, bb := some 2, hbp := some 1, sh := some 0,
           sf := some 0 }])) ∧
    (({ row := { id := 3, team := "T3", lg := "", year := 2004, g := 10, ab := 20, h := 20,
                 hr := 7, rbi := 3, sb := 2, so := 5, bb := 2, hbp := 1, sh := 0, sf := 0 },
        obp := some 1, pab := some 1 } : BBRow ℕ) ∉ nl_dat (bb_table
        [({ id := some 1, team := some "T1", lg := some "NL", year := some 2004,
            g := some 10, ab := some 20, h := some 20, hr := some 7, rbi := some 3,
            sb := some 2, so := some 5, bb := some 2, hbp := some 1, sh := some 0,
            sf := some 0 } : RawRow ℕ),
         { id := some 2, team := some "T2", lg := some "AL", year := some 2004,
           g := some 10, ab := some 20, h := some 20, hr := some 7, rbi := some 3,
           sb := some 2, so := some 5, bb := some 2, hbp := some 1, sh := some 0,
           sf := some 0 },
         { id := some 3, team := some "T3", lg := some "", year := some 2004,
           g := some 10, ab := some 20, h := some 20, hr := some 7, rbi := some 3,
           sb := some 2, so := some 5, bb := some 2, hbp := some 1, sh := some 0,
           sf := some 0 }]) ∧
      ({ row := { id := 3, team := "T3", lg := "", year := 2004, g := 10, ab := 20, h := 20,
                  hr := 7, rbi := 3, sb := 2, so := 5, bb := 2, hbp := 1, sh := 0, sf := 0 },
         obp := some 1, pab := some 1 } : BBRow ℕ) ∉ al_dat (bb_table
        [({ id := some 1, team := some "T1", lg := some "NL", year := some 2004,
            g := some 10, ab := some 20, h := some 20, hr := some 7, rbi := some 3,
            sb := some 2, so := some 5, bb := some 2, hbp := some 1, sh := some 0,
            sf := some 0 } : RawRow ℕ),
         { id := some 2, team := some "T2", lg := some "AL", year := some 2004,
           g := some 10, ab := some 20, h := some 20, hr := some 7, rbi := some 3,
           sb := some 2, so := some 5, bb := some 2, hbp := some 1, sh := some 0,
           sf := some 0 },
         { id := some 3, team := some "T3", lg := some "", year := some 2004,
           g := some 10, ab := some 20, h := some 20, hr := some 7, rbi := some 3,
           sb := some 2, so := some 5, bb := some 2, hbp := some 1, sh := some 0,
           sf := some 0 }])) := by
  refine ⟨league_partition _ _ (by decide) |>.1 rfl, ?_⟩
  exact league_partition _ _ (by decide) |>.2.2 (by decide) (by decide)

/-- C8: every returned Report has exactly the ten fixed top-level keys, in
order; its `nl` and `al` entries carry exactly the fields `dat`, `players`,
`teams`; and its `records` entry maps exactly the fourteen fixed metric
names, each to a `RecordEntry` (a structure with an identity field and a
value field). -/
theorem report_key_set (cols : List String) (rows : List (RawRow ι))
    (rep : List (String × ReportVal ι)) (h : bbanalyze cols rows = .ok rep) :
    rep.map Prod.fst = ["record.count", "complete.cases", "years", "player.count",
      "team.count", "league.count", "bb", "nl", "al", "records"] ∧
    (∀ l, ("nl", ReportVal.league l) ∈ rep → l.map Prod.fst = ["dat", "players", "teams"]) ∧
    (∀ l, ("al", ReportVal.league l) ∈ rep → l.map Prod.fst = ["dat", "players", "teams"]) ∧
    (∀ rs, ("records", ReportVal.recs rs) ∈ rep → rs.map Prod.fst = metric_names) := by
  unfold bbanalyze at h
  split at h
  · split at h
    · exact absurd h (by simp)
    · obtain rfl := Except.ok.inj h
      refine ⟨rfl, ?_, ?_, ?_⟩
      · intro l hl
        simp [report_body, Prod.mk.injEq] at hl
        subst hl
        rfl
      · intro l hl
        simp [report_body, Prod.mk.injEq] at hl
        subst hl
        rfl
      · intro rs hrs
        simp [report_body, Prod.mk.injEq] at hrs
        subst hrs
        rfl
  · exact absurd h (by simp)

/-- Witness for C8: the report of a one-row table has the ten fixed keys. -/
theorem report_key_set_witness :
    ∃ rep, bbanalyze required_cols
        [({ id := some 1, team := some "T1", lg := some "NL", year := some 2004,
            g := some 10, ab := some 20, h := some 20, hr := some 7, rbi := some 3,
            sb := some 2, so := some 5, bb := some 2, hbp := some 1, sh := some 0,
            sf := some 0 } : RawRow ℕ)] = .ok rep ∧
      rep.map Prod.fst = ["record.count", "complete.cases", "years", "player.count",
        "team.count", "league.count", "bb", "nl", "al", "records"] :=
  ⟨_, rfl, (report_key_set required_cols
    [({ id := some 1, team := some "T1", lg := some "NL", year := some 2004,
        g := some 10, ab := some 20, h := some 20, hr := some 7, rbi := some 3,
        sb := some 2, so := some 5, bb := some 2, hbp := some 1, sh := some 0,
        sf := some 0 } : RawRow ℕ)] _ rfl).1⟩

lemma filterMap_filter_eq {α β : Type} (p : α → Bool) (F : α → Option β)
    (hF : ∀ a, p a = false → F a = none) (l : List α) :
    (l.filter p).filterMap F = l.filterMap F := by
  induction l with
  | nil => rfl
  | cons a l ih =>
    cases hp : p a with
    | false => simp [List.filter_cons, hp, List.filterMap_cons, hF a hp, ih]
    | true => simp [List.filter_cons, hp, List.filterMap_cons, ih]

lemma lg_ser_filterMap (rows : List (RawRow ι)) :
    (lg_ser rows).filterMap id =
    rows.filterMap (fun r => if lg_astype r = "" then none else some (lg_astype r)) := by
  unfold lg_ser
  rw [List.filterMap_map]
  rfl

lemma league_count_filter (rows : List (RawRow ι)) :
    league_count (rows.filter (fun r => !decide (r.lg = some ""))) = league_count rows := by
  unfold league_count nunique
  rw [lg_ser_filterMap, lg_ser_filterMap, filterMap_filter_eq]
  intro a ha
  have hlg : a.lg = some "" := by simpa using ha
  simp [lg_astype, hlg]

/-- C9: rows carrying an empty-string league code are excluded from the
distinct-league tally — dropping them from the raw table leaves
`league.count` unchanged, so empty strings are treated as missing, not as a
distinct category — and any cleaned row with an empty league code belongs to
neither League Subset. -/
theorem empty_league_code_excluded (rows : List (RawRow ι)) :
    league_count (rows.filter (fun r => !decide (r.lg = some ""))) = league_count rows ∧
    ∀ b ∈ bb_table rows, b.row.lg = "" →
      b ∉ nl_dat (bb_table rows) ∧ b ∉ al_dat (bb_table rows) := by
  refine ⟨league_count_filter rows, ?_⟩
  intro b hb hlg
  constructor
  · intro hmem
    have h2 := (mem_nl_dat.mp hmem).2
    rw [hlg] at h2
    exact absurd h2 (by decide)
  · intro hmem
    have h2 := (mem_al_dat.mp hmem).2
    rw [hlg] at h2
    exact absurd h2 (by decide)

/-- Witness for C9: a three-row table with league codes "NL", "AL" and "";
removing the empty-string row leaves the league count (two) unchanged, and
that row's cleaned image is in neither subset. -/
theorem empty_league_code_excluded_witness :
    league_count
        ([({ id := some 1, team := some "T1", lg := some "NL", year := some 2004,
             g := some 10, ab := some 20, h := some 20, hr := some 7, rbi := some 3,
             sb := some 2, so := some 5, bb := some 2, hbp := some 1, sh := some 0,
             sf := some 0 } : RawRow ℕ),
          { id := some 2, team := some "T2", lg := some "AL", year := some 2004,
            g := some 10, ab := some 20, h := some 20, hr := some 7, rbi := some 3,
            sb := some 2, so := some 5, bb := some 2, hbp := some 1, sh := some 0,
            sf := some 0 },
          { id := some 3, team := some "T3", lg := some "", year := some 2004,
            g := some 10, ab := some 20, h := some 20, hr := some 7, rbi := some 3,
            sb := some 2, so := some 5, bb := some 2, hbp := some 1, sh := some 0,
            sf := some 0 }].filter (fun r => !decide (r.lg = some ""))) =
      league_count
        [({ id := some 1, team := some "T1", lg := some "NL", year := some 2004,
            g := some 10, ab := some 20, h := some 20, hr := some 7, rbi := some 3,
            sb := some 2, so := some 5, bb := some 2, hbp := some 1, sh := some 0,
            sf := some 0 } : RawRow ℕ),
         { id := some 2, team := some "T2", lg := some "AL", year := some 2004,
           g := some 10, ab := some 20, h := some 20, hr := some 7, rbi := some 3,
           sb := some 2, so := some 5, bb := some 2, hbp := some 1, sh := some 0,
           sf := some 0 },
         { id := some 3, team := some "T3", lg := some "", year := some 2004,
           g := some 10, ab := some 20, h := some 20, hr := some 7, rbi := some 3,
           sb := some 2, so := some 5, bb := some 2, hbp := some 1, sh := some 0,
           sf := some 0 }] ∧
    (({ row := { id := 3, team := "T3", lg := "", year := 2004, g := 10, ab := 20, h := 20,
                 hr := 7, rbi := 3, sb := 2, so := 5, bb := 2, hbp := 1, sh := 0, sf := 0 },
        obp := some 1, pab := some 1 } : BBRow ℕ) ∉ nl_dat (bb_table
        [({ id := some 1, team := some "T1", lg := some "NL", year := some 2004,
            g := some 10, ab := some 20, h := some 20, hr := some 7, rbi := some 3,
            sb := some 2, so := some 5, bb := some 2, hbp := some 1, sh := some 0,
            sf := some 0 } : RawRow ℕ),
         { id := some 2, team := some "T2", lg := some "AL", year := some 2004,
           g := some 10, ab := some 20, h := some 20, hr := some 7, rbi := some 3,
           sb := some 2, so := some 5, bb := some 2, hbp := some 1, sh := some 0,
           sf := some 0 },
         { id := some 3, team := some "T3", lg := some "", year := some 2004,
           g := some 10, ab := some 20, h := some 20, hr := some 7, rbi := some 3,
           sb := some 2, so := some 5, bb := some 2, hbp := some 1, sh := some 0,
           sf := some 0 }]) ∧
      ({ row := { id := 3, team := "T3", lg := "", year := 2004, g := 10, ab := 20, h := 20,
                  hr := 7, rbi := 3, sb := 2, so := 5, bb := 2, hbp := 1, sh := 0, sf := 0 },
         obp := some 1, pab := some 1 } : BBRow ℕ) ∉ al_dat (bb_table
        [({ id := some 1, team := some "T1", lg := some "NL", year := some 2004,
            g := some 10, ab := some 20, h := some 20, hr := some 7, rbi := some 3,
            sb := some 2, so := some 5, bb := some 2, hbp := some 1, sh := some 0,
            sf := some 0 } : RawRow ℕ),
         { id := some 2, team := some "T2", lg := some "AL", year := some 2004,
           g := some 10, ab := some 20, h := some 20, hr := some 7, rbi := some 3,
           sb := some 2, so := some 5, bb := some 2, hbp := some 1, sh := some 0,
           sf := some 0 },
         { id := some 3, team := some "T3", lg := some "", year := some 2004,
           g := some 10, ab := some 20, h := some 20, hr := some 7, rbi := some 3,
           sb := some 2, so := some 5, bb := some 2, hbp := some 1, sh := some 0,
           sf := some 0 }])) := by
  refine ⟨(empty_league_code_excluded _).1, ?_⟩
  exact (empty_league_code_excluded _).2 _ (by decide) rfl

lemma mem_counted_codes {rows : List (RawRow ι)} {s : String} :
    s ∈ (lg_ser rows).filterMap id ↔
    ((∃ r ∈ rows, r.lg = none) ∧ s = "nan") ∨
    ((∃ r ∈ rows, r.lg = some s) ∧ s ≠ "") := by
  rw [lg_ser_filterMap]
  simp only [List.mem_filterMap]
  constructor
  · rintro ⟨r, hr, hF⟩
    by_cases hast : lg_astype r = ""
    · rw [if_pos hast] at hF
      exact absurd hF (by simp)
    · rw [if_neg hast] at hF
      obtain rfl := Option.some.inj hF
      cases hl : r.lg with
      | none =>
        refine Or.inl ⟨⟨r, hr, hl⟩, ?_⟩
        simp [lg_astype, hl]
      | some t =>
        refine Or.inr ⟨⟨r, hr, ?_⟩, hast⟩
        rw [hl]
        simp [lg_astype, hl]
  · rintro (⟨⟨r, hr, hl⟩, rfl⟩ | ⟨⟨r, hr, hl⟩, hs⟩)
    · exact ⟨r, hr, by simp [lg_astype, hl]⟩
    · exact ⟨r, hr, by simp [lg_astype, hl, hs]⟩

lemma mem_present_codes {rows : List (RawRow ι)} {s : String} :
    s ∈ (rows.filterMap (fun r => r.lg)).filter (fun t => !decide (t = "")) ↔
    (∃ r ∈ rows, r.lg = some s) ∧ s ≠ "" := by
  simp [List.mem_filter, List.mem_filterMap]

/-- C10: when some row's league code is genuinely missing (not an empty
string), the astype-string conversion renders it as the literal string
"nan", which the empty-string replacement does not remove, so `league.count`
counts "nan" as one additional distinct league category beyond the distinct
non-empty present codes. -/
theorem missing_league_code_counted (rows : List (RawRow ι))
    (h1 : ∃ r ∈ rows, r.lg = none) (h2 : ∀ r ∈ rows, r.lg ≠ some "nan") :
    "nan" ∈ (lg_ser rows).filterMap id ∧
    league_count rows =
      nunique ((rows.filterMap (fun r => r.lg)).filter (fun t => !decide (t = ""))) + 1 := by
  refine ⟨mem_counted_codes.mpr (Or.inl ⟨h1, rfl⟩), ?_⟩
  unfold league_count nunique
  rw [← List.card_toFinset, ← List.card_toFinset]
  have hset : ((lg_ser rows).filterMap id).toFinset =
      insert "nan"
        ((rows.filterMap (fun r => r.lg)).filter (fun t => !decide (t = ""))).toFinset := by
    ext x
    simp only [List.mem_toFinset, Finset.mem_insert]
    rw [mem_counted_codes, mem_present_codes]
    constructor
    · rintro (⟨_, rfl⟩ | h)
      · exact Or.inl rfl
      · exact Or.inr h
    · rintro (rfl | h)
      · exact Or.inl ⟨h1, rfl⟩
      · exact Or.inr h
  rw [hset, Finset.card_insert_of_not_mem]
  rw [List.mem_toFinset, mem_present_codes]
  rintro ⟨⟨r, hr, hlg⟩, _⟩
  exact h2 r hr hlg

/-- Witness for C10: a two-row table with one "NL" code and one genuinely
missing code; the league count is the one present code plus the "nan"
category. -/
theorem missing_league_code_counted_witness :
    "nan" ∈ (lg_ser
        [({ id := some 1, team := some "T1", lg := some "NL", year := some 2004,
            g := some 10, ab := some 20, h := some 20, hr := some 7, rbi := some 3,
            sb := some 2, so := some 5, bb := some 2, hbp := some 1, sh := some 0,
            sf := some 0 } : RawRow ℕ),
         { id := some 2, team := some "T2", lg := none, year := some 2004,
           g := some 10, ab := some 20, h := some 20, hr := some 7, rbi := some 3,
           sb := some 2, so := some 5, bb := some 2, hbp := some 1, sh := some 0,
           sf := some 0 }]).filterMap id ∧
    league_count
        [({ id := some 1, team := some "T1", lg := some "NL", year := some 2004,
            g := some 10, ab := some 20, h := some 20, hr := some 7, rbi := some 3,
            sb := some 2, so := some 5, bb := some 2, hbp := some 1, sh := some 0,
            sf := some 0 } : RawRow ℕ),
         { id := some 2, team := some "T2", lg := none, year := some 2004,
           g := some 10, ab := some 20, h := some 20, hr := some 7, rbi := some 3,
           sb := some 2, so := some 5, bb := some 2, hbp := some 1, sh := some 0,
           sf := some 0 }] =
      nunique (([({ id := some 1, team := some "T1", lg := some "NL",
                     year := some 2004, g := some 10, ab := some 20, h := some 20,
                     hr := some 7, rbi := some 3, sb := some 2, so := some 5,
                     bb := some 2, hbp := some 1, sh := some 0,
                     sf := some 0 } : RawRow ℕ),
                  { id := some 2, team := some "T2", lg := none, year := some 2004,
                    g := some 10, ab := some 20, h := some 20, hr := some 7,
                    rbi := some 3, sb := some 2, so := some 5, bb := some 2,
                    hbp := some 1, sh := some 0,
                    sf := some 0 }].filterMap (fun r => r.lg)).filter
        (fun t => !decide (t = ""))) + 1 :=
  missing_league_code_counted _ (by decide) (by decide)

end BBAnalyze
